import Mathlib

/-!
Shallow embedding of the webgpu-gltf-viewer renderer, translated from the
JavaScript source, together with proofs of the specification's claims.

Conventions used throughout:
* `Rat` stands for the JavaScript `number` / `Float32Array` element values
  that the claims inspect (only lengths, zero fills and copying matter here,
  never rounding, so exact arithmetic is faithful).
* GPU handles (buffers, textures, pipelines) are modelled by identity tags
  (`Nat`) or presence flags; the claims are about which handle is installed
  where and with what dimensions, never about GPU-side contents.
* Fallible JS code is modelled with `Except String` carrying the source's
  literal `Error` messages; code that catches all its exceptions is modelled
  as a total function.
-/

namespace GltfViewer

/-! ## Section 1: mesh extraction (src/webgpu/extractMesh.js, `extractMesh`)

A glTF document is modelled down to exactly what `extractMesh` touches:
`document.getRoot().listMeshes()`, `mesh.listPrimitives()`,
`primitive.getAttribute('POSITION'/'TEXCOORD_0').getArray()` and
`primitive.getIndices().getArray()`.  An absent accessor is `none`.
-/

structure Primitive where
  position : Option (List Rat)
  texcoord0 : Option (List Rat)
  indices : Option (List Nat)
deriving DecidableEq

structure Mesh where
  primitives : List Primitive
deriving DecidableEq

structure GltfRoot where
  meshes : List Mesh
deriving DecidableEq

/-- The element type chosen for the index buffer: `new Uint16Array(indices)`
truncates each element mod 2^16, `new Uint32Array(indices)` mod 2^32. -/
inductive IndexArray
| u16 (data : List Nat)
| u32 (data : List Nat)
deriving DecidableEq

/-- `Math.max(...indices)`: the maximum of the elements.  `extractMesh` only
evaluates it on the array returned by `getIndices().getArray()`; on an empty
array JS yields `-Infinity`, which like our `0` falls in the `≤ 65535`
branch, so `foldl Nat.max 0` takes the same branch on every input. -/
def maxIndex (l : List Nat) : Nat :=
  l.foldl Nat.max 0

/-- Result record of `extractMesh` (positions, texcoords, indices,
vertexCount, indexCount). -/
structure MeshData where
  positions : List Rat
  texcoords : List Rat
  indices : Option IndexArray
  vertexCount : Nat
  indexCount : Nat
deriving DecidableEq

/-- `extractMesh` from src/webgpu/extractMesh.js lines 6-76.
`vertexCount = positions.length / 3` (exact for glTF vec3 accessors, whose
arrays have length `3·n`; `Nat` division matches JS there).  The default
texcoord array is `new Float32Array(vertexCount * 2)` zero-filled, whose
JS length `ToIndex(2·(length/3))` equals `2 * positions.length / 3`. -/
def extractMesh (doc : GltfRoot) : Except String MeshData :=
  match doc.meshes with
  | [] => .error "No meshes found in glTF document"
  | mesh :: _ =>
    match mesh.primitives with
    | [] => .error "No primitives found in mesh"
    | primitive :: _ =>
      match primitive.position with
      | none => .error "POSITION attribute not found in primitive"
      | some positions =>
        let vertexCount := positions.length / 3
        let texcoords : List Rat :=
          match primitive.texcoord0 with
          | some t => t
          | none => List.replicate (2 * positions.length / 3) 0
        match primitive.indices with
        | none =>
          .ok { positions := positions, texcoords := texcoords,
                indices := none, vertexCount := vertexCount, indexCount := 0 }
        | some idx =>
          let stored : IndexArray :=
            if maxIndex idx ≤ 65535 then
              .u16 (idx.map (fun x => x % 65536))
            else
              .u32 (idx.map (fun x => x % 4294967296))
          .ok { positions := positions, texcoords := texcoords,
                indices := some stored, vertexCount := vertexCount,
                indexCount := idx.length }

/-! ## Section 2: texture loading (src/webgpu/extractMesh.js, `loadTexture`
and `_createDefaultTexture`)

A glTF texture is modelled by the two things `loadTexture` reads from it:
`getMimeType()` (a string; the empty string stands for a falsy result, in
which case the source substitutes `'image/png'`) and `getImage()` (encoded
image bytes, `none` when absent).  `createImageBitmap` is an environment
capability, modelled as a `decode` oracle returning `none` exactly when the
JS call would throw; the source catches that failure. -/

structure GTexture where
  mimeType : String
  imageBytes : Option (List Nat)
deriving DecidableEq

structure GMaterial where
  baseColorTexture : Option GTexture
deriving DecidableEq

structure TexDocRoot where
  materials : List GMaterial
  textures : List GTexture
deriving DecidableEq

/-- The texel bytes of the built-in 2×2 fallback texture
(`_createDefaultTexture`, lines 165-170): red, green, blue, yellow. -/
def defaultTextureData : List Nat :=
  [255, 0, 0, 255,
   0, 255, 0, 255,
   0, 0, 255, 255,
   255, 255, 0, 255]

/-- What `loadTexture` hands to the GPU: either the fixed 2×2 fallback
texture with its texel bytes, or a texture of the decoded bitmap's size. -/
inductive LoadedTexture
| placeholder (width height : Nat) (data : List Nat)
| decoded (width height : Nat)
deriving DecidableEq

/-- `_createDefaultTexture` (lines 157-180): a 2×2 texture filled with
`defaultTextureData` via `writeTexture`. -/
def _createDefaultTexture : LoadedTexture :=
  .placeholder 2 2 defaultTextureData

/-- Texture selection in `loadTexture` (lines 87-101): the baseColor texture
of the first material that has one, else the first texture in the file, else
none. -/
def selectTexture (root : TexDocRoot) : Option GTexture :=
  match root.materials.find? (fun m => m.baseColorTexture.isSome) with
  | some m => m.baseColorTexture
  | none => root.textures.head?

/-- `loadTexture` (lines 83-149).  Every failure path returns the fallback
texture instead of raising, so the function is total.  `decode bytes mime`
models `createImageBitmap(new Blob([imageBytes], {type: mimeType}))`,
returning the bitmap's dimensions or `none` if decoding throws. -/
def loadTexture (decode : List Nat → String → Option (Nat × Nat))
    (root : TexDocRoot) : LoadedTexture :=
  match selectTexture root with
  | none => _createDefaultTexture
  | some texture =>
    let mimeType := if texture.mimeType = "" then "image/png" else texture.mimeType
    match texture.imageBytes with
    | none => _createDefaultTexture
    | some bytes =>
      if bytes.length = 0 then _createDefaultTexture
      else if mimeType = "image/ktx2" then _createDefaultTexture
      else
        match decode bytes mimeType with
        | none => _createDefaultTexture
        | some wh => .decoded wh.1 wh.2

/-! ## Section 3: the model renderer (src/webgpu/ModelRenderer.js)

`initialize` interleaves positions and texcoords into one vertex array and
writes it, and the extracted index array, into GPU buffers; `render` issues
the draw call, re-deriving the index format from
`this.modelData.indices instanceof Uint16Array`. -/

/-- One iteration of the interleaving loop in `ModelRenderer.initialize`
(lines 70-83): writes entries `5i .. 5i+4` of the vertex array.
JS reads `positions[3i+k]` / `texcoords[2i+k]`; `getD _ 0` matches in-range
reads (out-of-range JS reads would store NaN — the claims only quantify over
in-range indices). -/
def interleaveStep (positions texcoords : List Rat) (vd : List Rat) (i : Nat) :
    List Rat :=
  (((((vd.set (5 * i) (positions.getD (3 * i) 0)).set
      (5 * i + 1) (positions.getD (3 * i + 1) 0)).set
      (5 * i + 2) (positions.getD (3 * i + 2) 0)).set
      (5 * i + 3) (texcoords.getD (2 * i) 0)).set
      (5 * i + 4) (texcoords.getD (2 * i + 1) 0))

/-- The interleaved vertex array built by `ModelRenderer.initialize`
(lines 69-83): `new Float32Array(vertexCount * 5)` (zero-filled), then the
loop `for (i = 0; i < vertexCount; i++)` runs `interleaveStep`. -/
def buildVertexData (positions texcoords : List Rat) (vertexCount : Nat) :
    List Rat :=
  (List.range vertexCount).foldl (interleaveStep positions texcoords)
    (List.replicate (5 * vertexCount) 0)

/-- The renderer state `ModelRenderer.initialize` leaves behind, restricted
to the fields `render` reads: the vertex-buffer contents, the index-buffer
contents (present iff `modelData.indices` exists), the retained `modelData`,
and the counts. -/
structure ModelRendererState where
  modelData : MeshData
  vertexBufferData : List Rat
  indexBufferData : Option IndexArray
  vertexCount : Nat
  indexCount : Nat
deriving DecidableEq

/-- The resource-installing part of `ModelRenderer.initialize` (lines
68-102): builds the interleaved array, writes it to the vertex buffer, and
when indices exist writes them to an index buffer and records the count. -/
def modelInitialize (md : MeshData) : ModelRendererState :=
  let vertexData := buildVertexData md.positions md.texcoords md.vertexCount
  { modelData := md
    vertexBufferData := vertexData
    indexBufferData := md.indices
    vertexCount := md.vertexCount
    indexCount := if md.indices.isSome then md.indexCount else 0 }

inductive GPUIndexFormat
| uint16
| uint32
deriving DecidableEq

/-- The draw command recorded into the scene pass. -/
inductive DrawCmd
| draw (vertexCount : Nat)
| drawIndexed (indexCount : Nat) (format : GPUIndexFormat)
deriving DecidableEq

/-- `this.modelData.indices instanceof Uint16Array ? 'uint16' : 'uint32'`
(line 255): anything that is not a `Uint16Array` — including `null`, which
cannot reach this test because it is guarded by `this.indexBuffer` — gives
`'uint32'`. -/
def indexFormatOf : Option IndexArray → GPUIndexFormat
| some (.u16 _) => .uint16
| _ => .uint32

/-- `ModelRenderer.render` (lines 249-260): indexed draw with the re-derived
format when an index buffer exists, plain draw otherwise. -/
def modelRender (s : ModelRendererState) : DrawCmd :=
  match s.indexBufferData with
  | some _ => .drawIndexed s.indexCount (indexFormatOf s.modelData.indices)
  | none => .draw s.vertexCount

/-! ## Section 4: the fullscreen pass (public/shaders/fullscreen.vert and
src/webgpu/PostProcessingRenderer.js) -/

/-- The `pos` table of `fullscreen.vert` (lines 13-21): clip-space corners
for the six generated vertices (BL, BR, TL, TL, BR, TR). -/
def fullscreenPos : Fin 6 → Rat × Rat
| 0 => (-1, -1)
| 1 => (1, -1)
| 2 => (-1, 1)
| 3 => (-1, 1)
| 4 => (1, -1)
| 5 => (1, 1)

/-- The `uv` table of `fullscreen.vert` (lines 23-31). -/
def fullscreenUV : Fin 6 → Rat × Rat
| 0 => (0, 1)
| 1 => (1, 1)
| 2 => (0, 0)
| 3 => (0, 0)
| 4 => (1, 1)
| 5 => (1, 0)

/-- The vertex-buffer slot list of the post-processing pipeline:
`buffers: []` in `PostProcessingRenderer.initialize` (line 97) — the pass
uses `@builtin(vertex_index)` and no vertex buffer. -/
def postPipelineVertexBuffers : List Unit := []

/-- What `PostProcessingRenderer.render` (lines 119-139) records when a
destination texture is available: one render pass containing a single
`draw(6)` with the post pipeline bound. -/
structure PostPassRecord where
  drawVertexCount : Nat
  pipelineVertexBufferCount : Nat
deriving DecidableEq

def postProcessRender : PostPassRecord :=
  { drawVertexCount := 6
    pipelineVertexBufferCount := postPipelineVertexBuffers.length }

/-! ## Section 5: resize (src/hooks useWebGPU `resize`, lines 283-323, with
the renderers' initialization flags)

GPU textures get identity tags from an allocation counter so that
"previous targets destroyed" and "bound to the most recently allocated
texture" are expressible.  `isInitialized` is a JS object property: reading
a property no assignment ever wrote yields `undefined`, modelled as
`Option Bool := none` with truthiness `Option.getD · false`. -/

structure GpuTexture where
  id : Nat
  width : Nat
  height : Nat
deriving DecidableEq

/-- The fields of `TriangleRenderer` (src/webgpu/extractMesh.js lines
188-376) that the resize path inspects.  The constructor initializes the
resource refs to null; **no method of the class ever assigns
`this.isInitialized`**, so the property slot stays `undefined` (`none`). -/
structure TriangleRendererState where
  vertexBuffer : Option Nat
  uniformBuffer : Option Nat
  bindGroup : Option Nat
  pipeline : Option Nat
  rotation : Rat
  isInitialized : Option Bool
deriving DecidableEq

/-- `new TriangleRenderer(resources)` (lines 189-211). -/
def triangleConstructor : TriangleRendererState :=
  { vertexBuffer := none, uniformBuffer := none, bindGroup := none,
    pipeline := none, rotation := 0, isInitialized := none }

/-- The field effects of `TriangleRenderer.initialize` (lines 221-310):
creates the vertex buffer, uniform buffer, bind group and pipeline (tags 0-3
stand for the created handles).  It never writes `isInitialized`. -/
def triangleInitialize (t : TriangleRendererState) : TriangleRendererState :=
  { t with vertexBuffer := some 0, uniformBuffer := some 1,
           bindGroup := some 2, pipeline := some 3 }

/-- The fields of `ModelRenderer` / `PostProcessingRenderer` the resize path
inspects: both classes set `this.isInitialized = false` in the constructor
and `true` at the end of `initialize`, so the slot is always present. -/
structure FlaggedRenderer where
  isInitialized : Option Bool
deriving DecidableEq

/-- `PostProcessingRenderer`'s binding state: `sceneColorTexture` /
`bindGroup` sample one color texture, identified by its tag. -/
structure PostRendererState where
  isInitialized : Option Bool
  boundSourceTexture : Option Nat
deriving DecidableEq

/-- The shared state `resize` operates on: the canvas size, the device ref,
the three renderer refs, and the `WebGPUResources` object holding the scene
textures.  `nextId` is the allocation counter handing out fresh texture
identities; `destroyed` records every id `destroy()` was called on. -/
structure ResizeState where
  canvas : Option (Nat × Nat)
  device : Bool
  triangle : Option TriangleRendererState
  model : Option FlaggedRenderer
  post : Option PostRendererState
  sceneColorTexture : Option GpuTexture
  sceneDepthTexture : Option GpuTexture
  nextId : Nat
  destroyed : List Nat
deriving DecidableEq

/-- JS truthiness of the `isInitialized` property (`undefined` and `false`
are falsy). -/
def truthy (o : Option Bool) : Bool :=
  o.getD false

/-- `Math.floor(x * dpr)` on non-negative inputs. -/
def scaleDim (x dpr : Rat) : Nat :=
  (Rat.floor (x * dpr)).toNat

/-- `resize(newWidth, newHeight)` (src/hooks useWebGPU lines 283-323),
with the device-pixel ratio passed explicitly.  Guard: canvas, device and
all three renderer refs present and each renderer's `isInitialized` truthy.
Body: rescale the canvas, resize the triangle and model renderers (no-ops),
destroy both scene textures, allocate fresh ones at the scaled size, and
rebind the post renderer to the new color texture. -/
def resize (newWidth newHeight dpr : Rat) (s : ResizeState) : ResizeState :=
  match s.canvas, s.triangle, s.model, s.post with
  | some _, some tr, some mr, some pr =>
    if s.device && truthy tr.isInitialized && truthy mr.isInitialized
        && truthy pr.isInitialized then
      let w := scaleDim newWidth dpr
      let h := scaleDim newHeight dpr
      let destroyed :=
        s.destroyed
          ++ (match s.sceneColorTexture with
              | some t => [t.id] | none => [])
          ++ (match s.sceneDepthTexture with
              | some t => [t.id] | none => [])
      let newColor : GpuTexture := { id := s.nextId, width := w, height := h }
      let newDepth : GpuTexture := { id := s.nextId + 1, width := w, height := h }
      { s with
        canvas := some (w, h)
        sceneColorTexture := some newColor
        sceneDepthTexture := some newDepth
        nextId := s.nextId + 2
        destroyed := destroyed
        post := some { pr with boundSourceTexture := some newColor.id } }
    else s
  | _, _, _, _ => s

/-! ## Section 6: the orchestrator machine (src/hooks useWebGPU:
`initWebGPU` lines 93-281, `render` lines 201-274, the effect lines 325-340)

`initWebGPU(gen)` is an async function; JS runs each continuation segment
between `await`s atomically.  The machine below has one transition per
atomic segment:

* `mountStep` — the effect body: `gen = ++generationRef.current;
  aliveRef.current = true; initWebGPU(gen)`.  The synchronous prefix of
  `initWebGPU` (capability/canvas/dimension checks) touches no shared refs
  and suspends at `navigator.gpu.requestAdapter()`.
* `resumeStep g` — the pending `await` of generation `g`'s `initWebGPU`
  resolves and its continuation runs to the next suspension point.
* `unmountStep` — the effect cleanup: `aliveRef.current = false` and
  `cancelAnimationFrame` on a pending callback.
* `renderStep g` — one invocation of generation `g`'s `render` callback.

Every write of a shared ref, every queue submission and every
`requestAnimationFrame` call is recorded in a log entry carrying the
writer's generation together with `generationRef.current` and
`aliveRef.current` at the instant of the write, so that "installation
attributable to g1 after g2 begins" is directly expressible. -/

/-- The shared refs `initWebGPU` installs into. -/
inductive FieldTag
| device
| context
| resources
| triangleR
| modelR
| postR
| sceneColor
| sceneDepth
deriving DecidableEq

/-- Instrumentation record: shared-state writes, queue submissions and
frame scheduling, each stamped with the acting generation and the values of
`generationRef.current` / `aliveRef.current` at that instant. -/
inductive Evt
| install (f : FieldTag) (byGen curGen : Nat) (alive : Bool)
| submit (byGen curGen : Nat) (alive : Bool)
| schedule (byGen : Nat)
deriving DecidableEq

/-- The hook's refs.  Installed handles are tagged with the generation that
created them, so `device = some 1` reads "deviceRef.current holds the device
requested by generation 1". -/
structure Refs where
  generation : Nat
  alive : Bool
  device : Option Nat
  context : Option Nat
  resources : Option Nat
  triangleR : Option Nat
  modelR : Option Nat
  postR : Option Nat
  sceneColor : Option Nat
  sceneDepth : Option Nat
  animationId : Option Nat
  error : Option String
  isInitialized : Bool
deriving DecidableEq

def Refs.initial : Refs :=
  { generation := 0, alive := false, device := none, context := none,
    resources := none, triangleR := none, modelR := none, postR := none,
    sceneColor := none, sceneDepth := none, animationId := none,
    error := none, isInitialized := false }

/-- The suspension points of `initWebGPU`: the `await`s at
`requestAdapter()` (line 109), `requestDevice()` (line 115),
`triangleRenderer.initialize` (line 159), `modelRenderer.initialize`
(line 170) and `postRenderer.initialize` (line 181).  (The shader fetches
inside the renderers' `initialize` calls are interior to those awaits.) -/
inductive InitPos
| awaitAdapter
| awaitDevice
| awaitTriangleInit
| awaitModelInit
| awaitPostInit
deriving DecidableEq

structure Config where
  refs : Refs
  pending : List (Nat × InitPos)
  log : List Evt
deriving DecidableEq

def Config.initial : Config :=
  { refs := Refs.initial, pending := [], log := [] }

/-- Move generation `g`'s `initWebGPU` continuation to suspension point
`p`. -/
def setPos (pending : List (Nat × InitPos)) (g : Nat) (p : InitPos) :
    List (Nat × InitPos) :=
  (g, p) :: pending.filter (fun e => e.1 ≠ g)

/-- Generation `g`'s `initWebGPU` returned or threw: no continuation is
pending for it any more. -/
def removePos (pending : List (Nat × InitPos)) (g : Nat) :
    List (Nat × InitPos) :=
  pending.filter (fun e => e.1 ≠ g)

/-- One invocation of generation `g`'s `render` callback (lines 201-274).
`fault` models an exception thrown inside the `try` block (the
update/record/submit sequence); `texAvail` models whether
`context.getCurrentTexture()` yields a texture.  Transcribed control flow:
stale-loop guard, null-ref guards, the `try` block (recording the scene
pass, the texture-availability early-out that still reschedules, the post
pass and the submit), the `catch` that sets the error state and returns
without rescheduling, and the trailing `requestAnimationFrame`. -/
def renderStep (g : Nat) (fault : Option String) (texAvail : Bool)
    (c : Config) : Config :=
  let r := c.refs
  if ¬ r.alive ∨ g ≠ r.generation then c
  else if r.device.isNone ∨ r.context.isNone ∨ r.triangleR.isNone
      ∨ r.modelR.isNone ∨ r.postR.isNone then c
  else if r.resources.isNone then c
  else
    match fault with
    | some e =>
      { c with refs := { r with error := some ("Render error: " ++ e) } }
    | none =>
      if texAvail = false then
        { c with refs := { r with animationId := some g },
                 log := c.log ++ [.schedule g] }
      else
        { c with refs := { r with animationId := some g },
                 log := c.log ++ [.submit g r.generation r.alive, .schedule g] }

/-- The effect body (lines 326-329): mint the next generation, set the
liveness flag, start `initWebGPU(gen)`; its synchronous prefix suspends at
`requestAdapter()` without touching shared refs. -/
def mountStep (c : Config) : Config :=
  let g := c.refs.generation + 1
  { c with refs := { c.refs with generation := g, alive := true },
           pending := setPos c.pending g .awaitAdapter }

/-- The effect cleanup (lines 331-339): clear the liveness flag and cancel
a pending frame callback.  The device is deliberately not destroyed. -/
def unmountStep (c : Config) : Config :=
  { c with refs := { c.refs with alive := false, animationId := none } }

/-- Generation `g`'s pending `await` resolves and the continuation of
`initWebGPU(g)` runs to its next suspension point (or to the end).
Segment contents, from the source:

* after `requestAdapter()`: only `adapter.requestDevice()` is reached —
  no shared-ref writes, next suspension immediately (lines 110-115);
* after `requestDevice()`: **unguarded** installs of `deviceRef`,
  `contextRef`, `resourcesRef` and `triangleRendererRef` (lines 116-158),
  then the `triangleRenderer.initialize` await;
* after each renderer `initialize`: the `aliveRef/generation` check
  (lines 165, 176, 188); on failure the continuation abandons, on success
  the next renderer ref is installed and awaited, and after the last check
  the shared scene textures are installed (lines 191-192), `render()` is
  invoked synchronously (line 274, modelled with no fault and an available
  texture) and `setIsInitialized(true)` runs (line 275). -/
def resumeStep (g : Nat) (c : Config) : Config :=
  match c.pending.lookup g with
  | none => c
  | some pos =>
    let r := c.refs
    match pos with
    | .awaitAdapter =>
      { c with pending := setPos c.pending g .awaitDevice }
    | .awaitDevice =>
      { c with
        refs := { r with device := some g, context := some g,
                         resources := some g, triangleR := some g }
        pending := setPos c.pending g .awaitTriangleInit
        log := c.log ++
          [.install .device g r.generation r.alive,
           .install .context g r.generation r.alive,
           .install .resources g r.generation r.alive,
           .install .triangleR g r.generation r.alive] }
    | .awaitTriangleInit =>
      if ¬ r.alive ∨ g ≠ r.generation then
        { c with pending := removePos c.pending g }
      else
        { c with
          refs := { r with modelR := some g }
          pending := setPos c.pending g .awaitModelInit
          log := c.log ++ [.install .modelR g r.generation r.alive] }
    | .awaitModelInit =>
      if ¬ r.alive ∨ g ≠ r.generation then
        { c with pending := removePos c.pending g }
      else
        { c with
          refs := { r with postR := some g }
          pending := setPos c.pending g .awaitPostInit
          log := c.log ++ [.install .postR g r.generation r.alive] }
    | .awaitPostInit =>
      if ¬ r.alive ∨ g ≠ r.generation then
        { c with pending := removePos c.pending g }
      else
        let c1 :=
          { c with
            refs := { r with sceneColor := some g, sceneDepth := some g }
            pending := removePos c.pending g
            log := c.log ++
              [.install .sceneColor g r.generation r.alive,
               .install .sceneDepth g r.generation r.alive] }
        let c2 := renderStep g none true c1
        { c2 with refs := { c2.refs with isInitialized := true } }

/-- Scheduler actions.  `frame` is allowed at any time (an
over-approximation of the browser's callback scheduling), so the safety
theorems below cover every possible invocation of a `render` callback. -/
inductive Act
| mount
| unmount
| resume (g : Nat)
| frame (g : Nat) (fault : Option String) (texAvail : Bool)

def step (c : Config) : Act → Config
| .mount => mountStep c
| .unmount => unmountStep c
| .resume g => resumeStep g c
| .frame g fault texAvail => renderStep g fault texAvail c

/-- Run a schedule from the hook's initial state. -/
def run (acts : List Act) : Config :=
  acts.foldl step Config.initial

/-- The spec's claimed discipline for a single log entry: an installation
is only performed while the liveness flag is set and by the generation that
is current at that instant. -/
def installGuarded : Evt → Prop
| .install _ byGen curGen alive => alive = true ∧ byGen = curGen
| _ => True

instance : DecidablePred installGuarded := by
  intro e
  cases e <;> simp [installGuarded] <;> infer_instance

/-- The fields whose installation the source guards with the
`aliveRef/generation` check (everything installed after the check on
line 165 first passes). -/
def guardedField : FieldTag → Bool
| .modelR => true
| .postR => true
| .sceneColor => true
| .sceneDepth => true
| _ => false

/-- Combined per-entry invariant actually enforced by the code: guarded
installs and submissions happen only with the liveness flag set and by the
current generation. -/
def evtOK : Evt → Prop
| .install f byGen curGen alive => guardedField f = true → alive = true ∧ byGen = curGen
| .submit byGen curGen alive => alive = true ∧ byGen = curGen
| .schedule _ => True

/-! ### Behaviour of one `render` invocation, as equations -/

/-- All the refs the `render` callback needs are installed. -/
def readyRefs (r : Refs) : Prop :=
  r.device.isSome = true ∧ r.context.isSome = true ∧ r.resources.isSome = true ∧
  r.triangleR.isSome = true ∧ r.modelR.isSome = true ∧ r.postR.isSome = true

instance (r : Refs) : Decidable (readyRefs r) := by
  unfold readyRefs
  infer_instance

/-- The stale-loop guard (line 203): with the liveness flag down or a
superseded generation, the callback returns with no state change, no
command recording and no submission. -/
theorem renderStep_stale (g : Nat) (fault : Option String) (texAvail : Bool)
    (c : Config) (h : ¬ c.refs.alive ∨ g ≠ c.refs.generation) :
    renderStep g fault texAvail c = c := by
  unfold renderStep
  exact if_pos h

/-- A throw inside the `try` block: the `catch` sets the error state and
returns without scheduling another frame; the log gains no entry. -/
theorem renderStep_fault (g : Nat) (e : String) (texAvail : Bool) (c : Config)
    (ha : c.refs.alive = true) (hg : g = c.refs.generation)
    (hr : readyRefs c.refs) :
    renderStep g (some e) texAvail c =
      { c with refs := { c.refs with error := some ("Render error: " ++ e) } } := by
  subst hg
  obtain ⟨h1, h2, h3, h4, h5, h6⟩ := hr
  obtain ⟨d, hd⟩ := Option.isSome_iff_exists.mp h1
  obtain ⟨x2, hx2⟩ := Option.isSome_iff_exists.mp h2
  obtain ⟨x3, hx3⟩ := Option.isSome_iff_exists.mp h3
  obtain ⟨x4, hx4⟩ := Option.isSome_iff_exists.mp h4
  obtain ⟨x5, hx5⟩ := Option.isSome_iff_exists.mp h5
  obtain ⟨x6, hx6⟩ := Option.isSome_iff_exists.mp h6
  simp [renderStep, ha, hd, hx2, hx3, hx4, hx5, hx6]

/-- No destination texture this frame: the callback reschedules and returns
without submitting (lines 252-257). -/
theorem renderStep_noTex (g : Nat) (c : Config)
    (ha : c.refs.alive = true) (hg : g = c.refs.generation)
    (hr : readyRefs c.refs) :
    renderStep g none false c =
      { c with refs := { c.refs with animationId := some g },
               log := c.log ++ [.schedule g] } := by
  subst hg
  obtain ⟨h1, h2, h3, h4, h5, h6⟩ := hr
  obtain ⟨d, hd⟩ := Option.isSome_iff_exists.mp h1
  obtain ⟨x2, hx2⟩ := Option.isSome_iff_exists.mp h2
  obtain ⟨x3, hx3⟩ := Option.isSome_iff_exists.mp h3
  obtain ⟨x4, hx4⟩ := Option.isSome_iff_exists.mp h4
  obtain ⟨x5, hx5⟩ := Option.isSome_iff_exists.mp h5
  obtain ⟨x6, hx6⟩ := Option.isSome_iff_exists.mp h6
  simp [renderStep, ha, hd, hx2, hx3, hx4, hx5, hx6]

/-- The successful frame: one submission, then the next frame is
scheduled. -/
theorem renderStep_submit (g : Nat) (c : Config)
    (ha : c.refs.alive = true) (hg : g = c.refs.generation)
    (hr : readyRefs c.refs) :
    renderStep g none true c =
      { c with refs := { c.refs with animationId := some g },
               log := c.log ++ [.submit g c.refs.generation c.refs.alive,
                                .schedule g] } := by
  subst hg
  obtain ⟨h1, h2, h3, h4, h5, h6⟩ := hr
  obtain ⟨d, hd⟩ := Option.isSome_iff_exists.mp h1
  obtain ⟨x2, hx2⟩ := Option.isSome_iff_exists.mp h2
  obtain ⟨x3, hx3⟩ := Option.isSome_iff_exists.mp h3
  obtain ⟨x4, hx4⟩ := Option.isSome_iff_exists.mp h4
  obtain ⟨x5, hx5⟩ := Option.isSome_iff_exists.mp h5
  obtain ⟨x6, hx6⟩ := Option.isSome_iff_exists.mp h6
  simp [renderStep, ha, hd, hx2, hx3, hx4, hx5, hx6]

/-! ### Log invariant: what the code's checks actually enforce -/

theorem evtOK_renderStep (g : Nat) (fault : Option String) (texAvail : Bool)
    (c : Config) (h : ∀ e ∈ c.log, evtOK e) :
    ∀ e ∈ (renderStep g fault texAvail c).log, evtOK e := by
  by_cases h1 : ¬ c.refs.alive ∨ g ≠ c.refs.generation
  · rw [renderStep_stale g fault texAvail c h1]
    exact h
  · push_neg at h1
    obtain ⟨ha, hg⟩ := h1
    by_cases h2 : c.refs.device.isNone ∨ c.refs.context.isNone
        ∨ c.refs.triangleR.isNone ∨ c.refs.modelR.isNone ∨ c.refs.postR.isNone
    · have e1 : renderStep g fault texAvail c = c := by
        unfold renderStep
        rw [if_neg, if_pos h2]
        push_neg
        exact ⟨ha, hg⟩
      rw [e1]
      exact h
    · by_cases h3 : c.refs.resources.isNone
      · have e1 : renderStep g fault texAvail c = c := by
          unfold renderStep
          rw [if_neg, if_neg h2, if_pos h3]
          push_neg
          exact ⟨ha, hg⟩
        rw [e1]
        exact h
      · have hr : readyRefs c.refs := by
          push_neg at h2 h3
          simp only [Bool.not_eq_true, Option.isNone_eq_false_iff] at h2 h3
          exact ⟨h2.1, h2.2.1, h3, h2.2.2.1, h2.2.2.2.1, h2.2.2.2.2⟩
        cases fault with
        | some e0 =>
          rw [renderStep_fault g e0 texAvail c ha hg hr]
          exact h
        | none =>
          cases texAvail with
          | false =>
            rw [renderStep_noTex g c ha hg hr]
            intro e he
            simp only [List.mem_append, List.mem_cons,
              List.not_mem_nil, or_false] at he
            rcases he with he | rfl
            · exact h e he
            · simp [evtOK]
          | true =>
            rw [renderStep_submit g c ha hg hr]
            intro e he
            simp only [List.mem_append, List.mem_cons,
              List.not_mem_nil, or_false] at he
            rcases he with he | rfl | rfl
            · exact h e he
            · exact ⟨ha, hg⟩
            · simp [evtOK]

theorem evtOK_resumeStep (g : Nat) (c : Config) (h : ∀ e ∈ c.log, evtOK e) :
    ∀ e ∈ (resumeStep g c).log, evtOK e := by
  rcases hlook : c.pending.lookup g with _ | pos
  · unfold resumeStep
    rw [hlook]
    exact h
  · cases pos with
    | awaitAdapter =>
      unfold resumeStep
      rw [hlook]
      exact h
    | awaitDevice =>
      simp only [resumeStep, hlook]
      intro e he
      simp only [List.mem_append, List.mem_cons,
        List.not_mem_nil, or_false] at he
      rcases he with he | rfl | rfl | rfl | rfl
      · exact h e he
      all_goals simp [evtOK, guardedField]
    | awaitTriangleInit =>
      by_cases hguard : ¬ c.refs.alive ∨ g ≠ c.refs.generation
      · simp only [resumeStep, hlook, if_pos hguard]
        exact h
      · have hag := hguard
        push_neg at hag
        simp only [resumeStep, hlook, if_neg hguard]
        intro e he
        simp only [List.mem_append, List.mem_cons,
          List.not_mem_nil, or_false] at he
        rcases he with he | rfl
        · exact h e he
        · exact fun _ => ⟨hag.1, hag.2⟩
    | awaitModelInit =>
      by_cases hguard : ¬ c.refs.alive ∨ g ≠ c.refs.generation
      · simp only [resumeStep, hlook, if_pos hguard]
        exact h
      · have hag := hguard
        push_neg at hag
        simp only [resumeStep, hlook, if_neg hguard]
        intro e he
        simp only [List.mem_append, List.mem_cons,
          List.not_mem_nil, or_false] at he
        rcases he with he | rfl
        · exact h e he
        · exact fun _ => ⟨hag.1, hag.2⟩
    | awaitPostInit =>
      by_cases hguard : ¬ c.refs.alive ∨ g ≠ c.refs.generation
      · simp only [resumeStep, hlook, if_pos hguard]
        exact h
      · have hag := hguard
        push_neg at hag
        simp only [resumeStep, hlook, if_neg hguard]
        apply evtOK_renderStep
        intro e he
        simp only [List.mem_append, List.mem_cons,
          List.not_mem_nil, or_false] at he
        rcases he with he | rfl | rfl
        · exact h e he
        · exact fun _ => ⟨hag.1, hag.2⟩
        · exact fun _ => ⟨hag.1, hag.2⟩

theorem evtOK_step (c : Config) (a : Act) (h : ∀ e ∈ c.log, evtOK e) :
    ∀ e ∈ (step c a).log, evtOK e := by
  cases a
  · exact h
  · exact h
  · exact evtOK_resumeStep _ _ h
  · exact evtOK_renderStep _ _ _ _ h

theorem evtOK_foldl (acts : List Act) :
    ∀ c : Config, (∀ e ∈ c.log, evtOK e) →
      ∀ e ∈ (acts.foldl step c).log, evtOK e := by
  induction acts with
  | nil => intro c h; exact h
  | cons a rest ih =>
    intro c h
    exact ih (step c a) (evtOK_step c a h)

/-- Every entry of any reachable log satisfies the enforced discipline:
guarded installations and submissions happen only with the liveness flag set
and by the generation current at that instant. -/
theorem run_evtOK (acts : List Act) : ∀ e ∈ (run acts).log, evtOK e :=
  evtOK_foldl acts Config.initial (by intro e he; cases he)

/-! ## Helper lemmas about `maxIndex` and modular truncation -/

theorem le_foldl_max (l : List Nat) : ∀ a : Nat, a ≤ l.foldl Nat.max a := by
  induction l with
  | nil => intro a; exact Nat.le_refl a
  | cons b t ih =>
    intro a
    exact Nat.le_trans (Nat.le_max_left a b) (ih (Nat.max a b))

theorem mem_le_foldl_max (l : List Nat) : ∀ a : Nat, ∀ x ∈ l, x ≤ l.foldl Nat.max a := by
  induction l with
  | nil => intro a x hx; cases hx
  | cons b t ih =>
    intro a x hx
    rcases List.mem_cons.1 hx with rfl | hx
    · exact Nat.le_trans (Nat.le_max_right a x) (le_foldl_max t (Nat.max a x))
    · exact ih (Nat.max a b) x hx

theorem mem_le_maxIndex (l : List Nat) (x : Nat) (hx : x ∈ l) : x ≤ maxIndex l :=
  mem_le_foldl_max l 0 x hx

theorem map_mod_eq_self (l : List Nat) (n : Nat) (h : ∀ x ∈ l, x < n) :
    l.map (fun x => x % n) = l := by
  induction l with
  | nil => rfl
  | cons b t ih =>
    have hb : b % n = b := Nat.mod_eq_of_lt (h b (List.mem_cons_self b t))
    have ht : t.map (fun x => x % n) = t :=
      ih (fun x hx => h x (List.mem_cons_of_mem b hx))
    simp [hb, ht]

/-! ## Helper lemmas about the interleaving loop -/

theorem interleaveStep_length (p t vd : List Rat) (i : Nat) :
    (interleaveStep p t vd i).length = vd.length := by
  simp [interleaveStep]

theorem foldl_interleave_length (p t : List Rat) (l : List Nat) :
    ∀ acc : List Rat, (l.foldl (interleaveStep p t) acc).length = acc.length := by
  induction l with
  | nil => intro acc; rfl
  | cons b l ih =>
    intro acc
    rw [List.foldl_cons, ih, interleaveStep_length]

theorem getElem?_interleaveStep_lt (p t vd : List Rat) (i j : Nat)
    (hj : j < 5 * i) : (interleaveStep p t vd i)[j]? = vd[j]? := by
  unfold interleaveStep
  rw [List.getElem?_set_ne, List.getElem?_set_ne, List.getElem?_set_ne,
    List.getElem?_set_ne, List.getElem?_set_ne] <;> omega

theorem getElem?_interleaveStep_self (p t vd : List Rat) (i : Nat)
    (h : 5 * i + 4 < vd.length) :
    (interleaveStep p t vd i)[5 * i]? = some (p.getD (3 * i) 0)
    ∧ (interleaveStep p t vd i)[5 * i + 1]? = some (p.getD (3 * i + 1) 0)
    ∧ (interleaveStep p t vd i)[5 * i + 2]? = some (p.getD (3 * i + 2) 0)
    ∧ (interleaveStep p t vd i)[5 * i + 3]? = some (t.getD (2 * i) 0)
    ∧ (interleaveStep p t vd i)[5 * i + 4]? = some (t.getD (2 * i + 1) 0) := by
  unfold interleaveStep
  refine ⟨?_, ?_, ?_, ?_, ?_⟩
  · rw [List.getElem?_set_ne (by omega), List.getElem?_set_ne (by omega),
      List.getElem?_set_ne (by omega), List.getElem?_set_ne (by omega),
      List.getElem?_set_self (by omega)]
  · rw [List.getElem?_set_ne (by omega), List.getElem?_set_ne (by omega),
      List.getElem?_set_ne (by omega),
      List.getElem?_set_self (by simp [List.length_set]; omega)]
  · rw [List.getElem?_set_ne (by omega), List.getElem?_set_ne (by omega),
      List.getElem?_set_self (by simp [List.length_set]; omega)]
  · rw [List.getElem?_set_ne (by omega),
      List.getElem?_set_self (by simp [List.length_set]; omega)]
  · rw [List.getElem?_set_self (by simp [List.length_set]; omega)]

theorem foldl_interleave_getElem (p t : List Rat) :
    ∀ (n : Nat) (acc : List Rat) (i : Nat), i < n → 5 * i + 4 < acc.length →
      ((List.range n).foldl (interleaveStep p t) acc)[5 * i]? = some (p.getD (3 * i) 0)
      ∧ ((List.range n).foldl (interleaveStep p t) acc)[5 * i + 1]? = some (p.getD (3 * i + 1) 0)
      ∧ ((List.range n).foldl (interleaveStep p t) acc)[5 * i + 2]? = some (p.getD (3 * i + 2) 0)
      ∧ ((List.range n).foldl (interleaveStep p t) acc)[5 * i + 3]? = some (t.getD (2 * i) 0)
      ∧ ((List.range n).foldl (interleaveStep p t) acc)[5 * i + 4]? = some (t.getD (2 * i + 1) 0) := by
  intro n
  induction n with
  | zero => intro acc i hi; omega
  | succ n ih =>
    intro acc i hi hacc
    rw [List.range_succ, List.foldl_append, List.foldl_cons, List.foldl_nil]
    rcases Nat.lt_or_ge i n with hin | hin
    · have hlt : ∀ k, k ≤ 4 → 5 * i + k < 5 * n := by omega
      refine ⟨?_, ?_, ?_, ?_, ?_⟩
      · rw [show 5 * i = 5 * i + 0 by omega] at *
        rw [getElem?_interleaveStep_lt _ _ _ _ _ (hlt 0 (by omega))]
        exact (ih acc i hin hacc).1
      · rw [getElem?_interleaveStep_lt _ _ _ _ _ (hlt 1 (by omega))]
        exact (ih acc i hin hacc).2.1
      · rw [getElem?_interleaveStep_lt _ _ _ _ _ (hlt 2 (by omega))]
        exact (ih acc i hin hacc).2.2.1
      · rw [getElem?_interleaveStep_lt _ _ _ _ _ (hlt 3 (by omega))]
        exact (ih acc i hin hacc).2.2.2.1
      · rw [getElem?_interleaveStep_lt _ _ _ _ _ (hlt 4 (by omega))]
        exact (ih acc i hin hacc).2.2.2.2
    · have hieq : i = n := by omega
      subst hieq
      exact getElem?_interleaveStep_self p t _ i
        (by rw [foldl_interleave_length]; exact hacc)

theorem buildVertexData_length (p t : List Rat) (n : Nat) :
    (buildVertexData p t n).length = 5 * n := by
  unfold buildVertexData
  rw [foldl_interleave_length, List.length_replicate]

theorem buildVertexData_getElem (p t : List Rat) (n i : Nat) (hi : i < n) :
    (buildVertexData p t n)[5 * i]? = some (p.getD (3 * i) 0)
    ∧ (buildVertexData p t n)[5 * i + 1]? = some (p.getD (3 * i + 1) 0)
    ∧ (buildVertexData p t n)[5 * i + 2]? = some (p.getD (3 * i + 2) 0)
    ∧ (buildVertexData p t n)[5 * i + 3]? = some (t.getD (2 * i) 0)
    ∧ (buildVertexData p t n)[5 * i + 4]? = some (t.getD (2 * i + 1) 0) := by
  unfold buildVertexData
  exact foldl_interleave_getElem p t n (List.replicate (5 * n) 0) i hi
    (by rw [List.length_replicate]; omega)

/-! ## Concrete documents used by witnesses -/

/-- A one-mesh, one-primitive document with only a POSITION accessor. -/
def docPosOnly : GltfRoot :=
  { meshes := [{ primitives := [{ position := some [1, 2, 3, 4, 5, 6], texcoord0 := none, indices := none }] }] }

theorem error_msgs_distinct :
    ("No primitives found in mesh" : String) ≠ "No meshes found in glTF document"
    ∧ ("POSITION attribute not found in primitive" : String) ≠ "No meshes found in glTF document"
    ∧ ("POSITION attribute not found in primitive" : String) ≠ "No primitives found in mesh" := by
  refine ⟨?_, ?_, ?_⟩ <;> decide

/-! ## Claim theorems for the extraction error protocol -/

/-- C7: mesh extraction fails with the no-mesh error exactly when the
document lists zero meshes; otherwise with the no-primitive error exactly
when the first mesh lists zero primitives; otherwise with the
missing-attribute error exactly when the first primitive has no POSITION
attribute; and returns a result in all remaining cases. -/
theorem c7_extract_error_cases (doc : GltfRoot) :
    (extractMesh doc = .error "No meshes found in glTF document" ↔ doc.meshes = [])
    ∧ (∀ m ms, doc.meshes = m :: ms →
        (extractMesh doc = .error "No primitives found in mesh" ↔ m.primitives = []))
    ∧ (∀ m ms p ps, doc.meshes = m :: ms → m.primitives = p :: ps →
        (extractMesh doc = .error "POSITION attribute not found in primitive"
          ↔ p.position = none))
    ∧ (∀ m ms p ps positions, doc.meshes = m :: ms → m.primitives = p :: ps →
        p.position = some positions → (extractMesh doc).isOk = true) := by
  obtain ⟨d1, d2, d3⟩ := error_msgs_distinct
  refine ⟨?_, ?_, ?_, ?_⟩
  · rcases hms : doc.meshes with _ | ⟨m, ms⟩
    · simp [extractMesh, hms]
    · rcases hp : m.primitives with _ | ⟨p, ps⟩
      · simp [extractMesh, hms, hp, d1]
      · rcases hpos : p.position with _ | positions
        · simp [extractMesh, hms, hp, hpos, d2]
        · rcases hidx : p.indices with _ | idx
          · simp [extractMesh, hms, hp, hpos, hidx]
          · simp [extractMesh, hms, hp, hpos, hidx]
  · intro m ms hms
    rcases hp : m.primitives with _ | ⟨p, ps⟩
    · simp [extractMesh, hms, hp]
    · rcases hpos : p.position with _ | positions
      · simp [extractMesh, hms, hp, hpos, d3]
      · rcases hidx : p.indices with _ | idx
        · simp [extractMesh, hms, hp, hpos, hidx]
        · simp [extractMesh, hms, hp, hpos, hidx]
  · intro m ms p ps hms hp
    rcases hpos : p.position with _ | positions
    · simp [extractMesh, hms, hp, hpos]
    · rcases hidx : p.indices with _ | idx
      · simp [extractMesh, hms, hp, hpos, hidx]
      · simp [extractMesh, hms, hp, hpos, hidx]
  · intro m ms p ps positions hms hp hpos
    rcases hidx : p.indices with _ | idx
    · simp [extractMesh, hms, hp, hpos, hidx, Except.isOk, Except.toBool]
    · simp [extractMesh, hms, hp, hpos, hidx, Except.isOk, Except.toBool]

/-- C7 witness: the characterisations evaluated on the empty document and on
a concrete well-formed document. -/
theorem c7_extract_error_cases_witness :
    (extractMesh { meshes := [] } = .error "No meshes found in glTF document"
      ↔ ({ meshes := [] } : GltfRoot).meshes = [])
    ∧ (extractMesh docPosOnly).isOk = true := by
  constructor
  · exact (c7_extract_error_cases { meshes := [] }).1
  · exact (c7_extract_error_cases docPosOnly).2.2.2 _ [] _ [] [1, 2, 3, 4, 5, 6] rfl rfl rfl

/-- C8: when the first primitive has POSITION but no TEXCOORD_0, extraction
returns an all-zero texcoord array of length `2 * vertexCount`, with
`vertexCount` the position-array length divided by 3 (glTF vec3 accessors
have length divisible by 3). -/
theorem c8_default_texcoords (doc : GltfRoot) (m : Mesh) (ms : List Mesh)
    (p : Primitive) (ps : List Primitive) (positions : List Rat)
    (hms : doc.meshes = m :: ms) (hp : m.primitives = p :: ps)
    (hpos : p.position = some positions) (htc : p.texcoord0 = none)
    (hdvd : 3 ∣ positions.length) :
    ∃ md, extractMesh doc = .ok md
      ∧ md.vertexCount = positions.length / 3
      ∧ md.texcoords.length = 2 * md.vertexCount
      ∧ ∀ x ∈ md.texcoords, x = 0 := by
  have hlen : (2 * positions.length / 3) = 2 * (positions.length / 3) :=
    Nat.mul_div_assoc 2 hdvd
  rcases hidx : p.indices with _ | idx
  · refine ⟨{ positions := positions, texcoords := List.replicate (2 * positions.length / 3) 0, indices := none, vertexCount := positions.length / 3, indexCount := 0 }, ?_, rfl, ?_, ?_⟩
    · simp [extractMesh, hms, hp, hpos, htc, hidx]
    · simp [List.length_replicate, hlen]
    · intro x hx
      exact List.eq_of_mem_replicate hx
  · refine ⟨{ positions := positions, texcoords := List.replicate (2 * positions.length / 3) 0, indices := some (if maxIndex idx ≤ 65535 then .u16 (idx.map (fun x => x % 65536)) else .u32 (idx.map (fun x => x % 4294967296))), vertexCount := positions.length / 3, indexCount := idx.length }, ?_, rfl, ?_, ?_⟩
    · simp [extractMesh, hms, hp, hpos, htc, hidx]
    · simp [List.length_replicate, hlen]
    · intro x hx
      exact List.eq_of_mem_replicate hx

/-- C8 witness at a concrete document with 6 position floats and no
TEXCOORD_0 attribute. -/
theorem c8_default_texcoords_witness :
    ∃ md, extractMesh docPosOnly = .ok md
      ∧ md.vertexCount = ([1, 2, 3, 4, 5, 6] : List Rat).length / 3
      ∧ md.texcoords.length = 2 * md.vertexCount
      ∧ ∀ x ∈ md.texcoords, x = 0 :=
  c8_default_texcoords docPosOnly _ [] _ [] [1, 2, 3, 4, 5, 6] rfl rfl rfl rfl (by decide)

/-- C5: for a non-empty index array, extraction stores 16-bit elements
(unchanged values) and the draw call uses `'uint16'` when the maximum index
is at most 65535; it stores 32-bit elements and the draw call uses
`'uint32'` when the maximum index is at least 65536; and the draw call's
index format always equals the encoding chosen at extraction. -/
theorem c5_index_encoding (doc : GltfRoot) (m : Mesh) (ms : List Mesh)
    (p : Primitive) (ps : List Primitive) (positions : List Rat)
    (idx : List Nat)
    (hms : doc.meshes = m :: ms) (hp : m.primitives = p :: ps)
    (hpos : p.position = some positions) (hidx : p.indices = some idx)
    (_hne : idx ≠ []) :
    ∃ md, extractMesh doc = .ok md
      ∧ (maxIndex idx ≤ 65535 →
          md.indices = some (.u16 idx)
          ∧ modelRender (modelInitialize md) = .drawIndexed idx.length .uint16)
      ∧ (65536 ≤ maxIndex idx →
          md.indices = some (.u32 (idx.map (fun x => x % 4294967296)))
          ∧ modelRender (modelInitialize md) = .drawIndexed idx.length .uint32)
      ∧ (∀ ia, md.indices = some ia →
          modelRender (modelInitialize md) = .drawIndexed idx.length (indexFormatOf (some ia))) := by
  refine ⟨{ positions := positions, texcoords := match p.texcoord0 with | some t => t | none => List.replicate (2 * positions.length / 3) 0, indices := some (if maxIndex idx ≤ 65535 then .u16 (idx.map (fun x => x % 65536)) else .u32 (idx.map (fun x => x % 4294967296))), vertexCount := positions.length / 3, indexCount := idx.length }, ?_, ?_, ?_, ?_⟩
  · simp [extractMesh, hms, hp, hpos, hidx]
  · intro h16
    have hid : idx.map (fun x => x % 65536) = idx :=
      map_mod_eq_self idx 65536
        (fun x hx => Nat.lt_of_le_of_lt
          (Nat.le_trans (mem_le_maxIndex idx x hx) h16) (by omega))
    constructor
    · simp [if_pos h16, hid]
    · simp [modelRender, modelInitialize, indexFormatOf, if_pos h16]
  · intro h32
    have h16 : ¬ maxIndex idx ≤ 65535 := by omega
    constructor
    · simp [if_neg h16]
    · simp [modelRender, modelInitialize, indexFormatOf, if_neg h16]
  · intro ia hia
    simp only [Option.some.injEq] at hia
    simp [modelRender, modelInitialize, ← hia]

/-- A primitive whose single index sits exactly at the 16-bit boundary. -/
def primIdx65535 : Primitive :=
  { position := some [1, 2, 3], texcoord0 := none, indices := some [65535] }

/-- A primitive whose single index just exceeds the 16-bit boundary. -/
def primIdx65536 : Primitive :=
  { position := some [1, 2, 3], texcoord0 := none, indices := some [65536] }

def docIdx65535 : GltfRoot := { meshes := [{ primitives := [primIdx65535] }] }

def docIdx65536 : GltfRoot := { meshes := [{ primitives := [primIdx65536] }] }

/-- C5 witness: the boundary inputs.  A single index 65535 draws with
`'uint16'`; a single index 65536 draws with `'uint32'`. -/
theorem c5_index_encoding_witness :
    (∃ md, extractMesh docIdx65535 = .ok md
      ∧ (maxIndex [65535] ≤ 65535 →
          md.indices = some (.u16 [65535])
          ∧ modelRender (modelInitialize md) = .drawIndexed 1 .uint16))
    ∧ (∃ md, extractMesh docIdx65536 = .ok md
      ∧ (65536 ≤ maxIndex [65536] →
          md.indices = some (.u32 [65536])
          ∧ modelRender (modelInitialize md) = .drawIndexed 1 .uint32)) := by
  constructor
  · obtain ⟨md, hok, h16, _, _⟩ :=
      c5_index_encoding docIdx65535 { primitives := [primIdx65535] } []
        primIdx65535 [] [1, 2, 3] [65535] rfl rfl rfl rfl (by decide)
    exact ⟨md, hok, h16⟩
  · obtain ⟨md, hok, _, h32, _⟩ :=
      c5_index_encoding docIdx65536 { primitives := [primIdx65536] } []
        primIdx65536 [] [1, 2, 3] [65536] rfl rfl rfl rfl (by decide)
    refine ⟨md, hok, fun h => ?_⟩
    obtain ⟨h1, h2⟩ := h32 h
    exact ⟨by rw [h1]; decide, h2⟩

/-- C6: texture loading is total (never raises) and resolves each of the
three fallback situations — no texture selected, image bytes absent or
empty, an `image/ktx2`-tagged texture — and an undecodable image to the
fixed 2×2 RGBA placeholder with texel bytes
`[255,0,0,255, 0,255,0,255, 0,0,255,255, 255,255,0,255]`. -/
theorem c6_texture_fallbacks (decode : List Nat → String → Option (Nat × Nat))
    (root : TexDocRoot) :
    (selectTexture root = none →
      loadTexture decode root = .placeholder 2 2 defaultTextureData)
    ∧ (∀ t, selectTexture root = some t → t.imageBytes = none →
        loadTexture decode root = .placeholder 2 2 defaultTextureData)
    ∧ (∀ t bs, selectTexture root = some t → t.imageBytes = some bs →
        bs.length = 0 →
        loadTexture decode root = .placeholder 2 2 defaultTextureData)
    ∧ (∀ t, selectTexture root = some t → t.mimeType = "image/ktx2" →
        loadTexture decode root = .placeholder 2 2 defaultTextureData)
    ∧ (∀ t bs, selectTexture root = some t → t.imageBytes = some bs →
        decode bs (if t.mimeType = "" then "image/png" else t.mimeType) = none →
        loadTexture decode root = .placeholder 2 2 defaultTextureData) := by
  refine ⟨?_, ?_, ?_, ?_, ?_⟩
  · intro hsel
    simp [loadTexture, hsel, _createDefaultTexture]
  · intro t hsel hbytes
    simp [loadTexture, hsel, hbytes, _createDefaultTexture]
  · intro t bs hsel hbytes hlen
    simp [loadTexture, hsel, hbytes, hlen, _createDefaultTexture]
  · intro t hsel hmime
    rcases hbytes : t.imageBytes with _ | bs
    · simp [loadTexture, hsel, hbytes, _createDefaultTexture]
    · rcases Nat.eq_zero_or_pos bs.length with hlen | hlen
      · simp [loadTexture, hsel, hbytes, hlen, _createDefaultTexture]
      · have hne : ¬ bs.length = 0 := by omega
        have hmime2 : (if t.mimeType = "" then "image/png" else t.mimeType) = "image/ktx2" := by
          rw [hmime]
          decide
        simp [loadTexture, hsel, hbytes, hne, hmime2, _createDefaultTexture]
  · intro t bs hsel hbytes hdec
    rcases Nat.eq_zero_or_pos bs.length with hlen | hlen
    · simp [loadTexture, hsel, hbytes, hlen, _createDefaultTexture]
    · have hne : ¬ bs.length = 0 := by omega
      by_cases hk : (if t.mimeType = "" then "image/png" else t.mimeType) = "image/ktx2"
      · simp [loadTexture, hsel, hbytes, hne, hk, _createDefaultTexture]
      · simp [loadTexture, hsel, hbytes, hne, hk, hdec, _createDefaultTexture]

/-- C6 witness: the empty document selects no texture and loads the
placeholder (with the decode oracle that always fails). -/
theorem c6_texture_fallbacks_witness :
    loadTexture (fun _ _ => none) { materials := [], textures := [] }
      = .placeholder 2 2 defaultTextureData :=
  (c6_texture_fallbacks (fun _ _ => none) { materials := [], textures := [] }).1 rfl

/-- C9: the fullscreen vertex shader maps the 6 generated vertex indices to
UV coordinates 0→(0,1), 1→(1,1), 2→(0,0), 3→(0,0), 4→(1,1), 5→(1,0) over
the corner positions BL, BR, TL, TL, BR, TR — the vertically flipped
sampling — and the post pass draws exactly 6 vertices with no vertex
buffer. -/
theorem c9_fullscreen_pass :
    fullscreenUV 0 = (0, 1) ∧ fullscreenUV 1 = (1, 1) ∧ fullscreenUV 2 = (0, 0)
    ∧ fullscreenUV 3 = (0, 0) ∧ fullscreenUV 4 = (1, 1) ∧ fullscreenUV 5 = (1, 0)
    ∧ fullscreenPos 0 = (-1, -1) ∧ fullscreenPos 1 = (1, -1)
    ∧ fullscreenPos 2 = (-1, 1) ∧ fullscreenPos 3 = (-1, 1)
    ∧ fullscreenPos 4 = (1, -1) ∧ fullscreenPos 5 = (1, 1)
    ∧ postProcessRender.drawVertexCount = 6
    ∧ postProcessRender.pipelineVertexBufferCount = 0
    ∧ postPipelineVertexBuffers = [] :=
  ⟨rfl, rfl, rfl, rfl, rfl, rfl, rfl, rfl, rfl, rfl, rfl, rfl, rfl, rfl, rfl⟩

/-- C10: `ModelRenderer.initialize` writes into the vertex buffer the
interleaved array of length `5 * vertexCount` whose block `i` is the three
position components `positions[3i..3i+2]` followed by the two texcoord
components `texcoords[2i..2i+1]`. -/
theorem c10_interleaved_vertex_data (md : MeshData) (i : Nat)
    (hi : i < md.vertexCount) :
    (modelInitialize md).vertexBufferData
        = buildVertexData md.positions md.texcoords md.vertexCount
    ∧ (modelInitialize md).vertexBufferData.length = 5 * md.vertexCount
    ∧ (modelInitialize md).vertexBufferData[5 * i]?
        = some (md.positions.getD (3 * i) 0)
    ∧ (modelInitialize md).vertexBufferData[5 * i + 1]?
        = some (md.positions.getD (3 * i + 1) 0)
    ∧ (modelInitialize md).vertexBufferData[5 * i + 2]?
        = some (md.positions.getD (3 * i + 2) 0)
    ∧ (modelInitialize md).vertexBufferData[5 * i + 3]?
        = some (md.texcoords.getD (2 * i) 0)
    ∧ (modelInitialize md).vertexBufferData[5 * i + 4]?
        = some (md.texcoords.getD (2 * i + 1) 0) := by
  obtain ⟨h0, h1, h2, h3, h4⟩ :=
    buildVertexData_getElem md.positions md.texcoords md.vertexCount i hi
  exact ⟨rfl, buildVertexData_length md.positions md.texcoords md.vertexCount,
    h0, h1, h2, h3, h4⟩

/-- C10 witness: two interleaved vertices evaluated concretely. -/
theorem c10_interleaved_vertex_data_witness :
    ((modelInitialize { positions := [1, 2, 3, 4, 5, 6], texcoords := [7, 8, 9, 10], indices := none, vertexCount := 2, indexCount := 0 }).vertexBufferData.length = 5 * 2
      ∧ (modelInitialize { positions := [1, 2, 3, 4, 5, 6], texcoords := [7, 8, 9, 10], indices := none, vertexCount := 2, indexCount := 0 }).vertexBufferData[5 * 1 + 3]?
          = some (([7, 8, 9, 10] : List Rat).getD (2 * 1) 0)) := by
  obtain ⟨_, hlen, _, _, _, h3, _⟩ :=
    c10_interleaved_vertex_data { positions := [1, 2, 3, 4, 5, 6], texcoords := [7, 8, 9, 10], indices := none, vertexCount := 2, indexCount := 0 } 1 (by decide)
  exact ⟨hlen, h3⟩

/-- The resize-relevant shared state after a successful initialization at a
640×480 drawable: all renderer refs installed, `ModelRenderer` and
`PostProcessingRenderer` reporting `isInitialized = true`, and the triangle
renderer exactly as the constructor-then-`initialize` path leaves it. -/
def resizeStateAfterInit : ResizeState :=
  { canvas := some (640, 480)
    device := true
    triangle := some (triangleInitialize triangleConstructor)
    model := some { isInitialized := some true }
    post := some { isInitialized := some true, boundSourceTexture := some 0 }
    sceneColorTexture := some { id := 0, width := 640, height := 480 }
    sceneDepthTexture := some { id := 1, width := 640, height := 480 }
    nextId := 2
    destroyed := [] }

/-- C2 (the code violates the claim): `TriangleRenderer` never assigns
`isInitialized`, so the guard `triangleRendererRef.current.isInitialized`
reads `undefined` and `resize` is a no-op on every state whose triangle
renderer the program actually built — the Scene Targets are never
reallocated, contrary to the claim.  The second conjunct pins the source of
the bug: the constructor-then-`initialize` path leaves the property
absent. -/
theorem c2_resize_is_dead_code (newWidth newHeight dpr : Rat) (s : ResizeState)
    (htr : ∀ t, s.triangle = some t → t.isInitialized = none) :
    resize newWidth newHeight dpr s = s
    ∧ (triangleInitialize triangleConstructor).isInitialized = none := by
  constructor
  · rcases hc : s.canvas with _ | cv
    · simp [resize, hc]
    · rcases ht : s.triangle with _ | tr
      · simp [resize, hc, ht]
      · rcases hm : s.model with _ | mr
        · simp [resize, hc, ht, hm]
        · rcases hpo : s.post with _ | pr
          · simp [resize, hc, ht, hm, hpo]
          · have htr2 : tr.isInitialized = none := htr tr ht
            simp [resize, hc, ht, hm, hpo, truthy, htr2]
  · rfl

/-- C2 witness: on the concrete post-initialization state, a
`resize(800, 600)` request (device-pixel ratio 1) leaves everything
unchanged. -/
theorem c2_resize_is_dead_code_witness :
    resize 800 600 1 resizeStateAfterInit = resizeStateAfterInit
    ∧ (triangleInitialize triangleConstructor).isInitialized = none := by
  refine c2_resize_is_dead_code 800 600 1 resizeStateAfterInit ?_
  intro t ht
  rw [← Option.some.inj ht]
  rfl

/-! ## Claim theorems for the generation/liveness protocol -/

/-- The schedule that drives one mounted generation through its whole
initialization: mount, then the five `await` resumptions of
`initWebGPU(1)`, ending with the inline first frame. -/
def initTrace : List Act :=
  [Act.mount, Act.resume 1, Act.resume 1, Act.resume 1, Act.resume 1,
   Act.resume 1]

/-- C1 counterexample: the claim "every mutation of shared state by g1's
continuation after a suspension point is preceded by a passing
liveness-and-generation check" fails.  Mount g1, mount g2 while g1 is
suspended at `requestAdapter()`, then let g1's continuation run: resuming
after `requestDevice()` it installs `deviceRef`, `contextRef`,
`resourcesRef` and `triangleRendererRef` with no check, after g2 has
begun. -/
theorem c1_counterexample :
    ¬ (∀ e ∈ (run [Act.mount, Act.mount, Act.resume 1, Act.resume 1]).log,
        installGuarded e) := by
  decide

/-- C1 (amended): the checks after the renderer-initialize suspension
points do guard every later installation — the model renderer, the post
renderer and the shared scene textures are only ever installed while the
liveness flag is set and by the generation that is current at that instant.
The installations of the device, context, resources helper and triangle
renderer after the adapter/device suspension points are unguarded (see the
counterexample). -/
theorem c1_guarded_installs (acts : List Act) (f : FieldTag)
    (byGen curGen : Nat) (alive : Bool)
    (hmem : Evt.install f byGen curGen alive ∈ (run acts).log)
    (hf : guardedField f = true) :
    alive = true ∧ byGen = curGen :=
  run_evtOK acts _ hmem hf

/-- C1 witness: the model-renderer installation in a clean one-generation
run is stamped live-and-current. -/
theorem c1_guarded_installs_witness :
    Evt.install .modelR 1 1 true
        ∈ (run [Act.mount, Act.resume 1, Act.resume 1, Act.resume 1]).log
    ∧ (true = true ∧ (1 : Nat) = 1) := by
  have hmem : Evt.install .modelR 1 1 true
      ∈ (run [Act.mount, Act.resume 1, Act.resume 1, Act.resume 1]).log := by
    decide
  exact ⟨hmem, c1_guarded_installs _ _ _ _ _ hmem rfl⟩

/-- C3: (i) once the liveness flag is false or the captured generation
differs from the current one, an invocation of that generation's `render`
callback returns with no state change, recording nothing and submitting
nothing; (ii) every queue submission in any schedule — including any
teardown-then-immediate-restart schedule — is performed with the liveness
flag set by the generation current at that instant; (iii) at most one
generation can be live at any time, so two concurrently Running generations
are impossible. -/
theorem c3_no_stale_submission :
    (∀ (g : Nat) (fault : Option String) (texAvail : Bool) (c : Config),
        (¬ c.refs.alive ∨ g ≠ c.refs.generation) →
        renderStep g fault texAvail c = c)
    ∧ (∀ (acts : List Act) (byGen curGen : Nat) (alive : Bool),
        Evt.submit byGen curGen alive ∈ (run acts).log →
        alive = true ∧ byGen = curGen)
    ∧ (∀ (r : Refs) (g₁ g₂ : Nat), g₁ ≠ g₂ →
        ¬ ((r.alive = true ∧ g₁ = r.generation)
            ∧ (r.alive = true ∧ g₂ = r.generation))) :=
  ⟨renderStep_stale,
   fun acts _ _ _ hmem => run_evtOK acts _ hmem,
   fun _ _ _ hne h => hne (h.1.2.trans h.2.2.symm)⟩

/-- C3 witness: after teardown the torn-down generation's callback is a
no-op; the completed one-generation run submits live-and-current; and
generations 1 and 2 cannot both be live. -/
theorem c3_no_stale_submission_witness :
    renderStep 1 none true (run [Act.mount, Act.unmount])
        = run [Act.mount, Act.unmount]
    ∧ (true = true ∧ (1 : Nat) = 1)
    ∧ ¬ ((Refs.initial.alive = true ∧ 1 = Refs.initial.generation)
        ∧ (Refs.initial.alive = true ∧ 2 = Refs.initial.generation)) := by
  refine ⟨?_, ?_, ?_⟩
  · exact c3_no_stale_submission.1 1 none true (run [Act.mount, Act.unmount])
      (by decide)
  · exact c3_no_stale_submission.2.1 initTrace 1 1 true (by decide)
  · exact c3_no_stale_submission.2.2 Refs.initial 1 2 (by decide)

/-- C4: an exception thrown during a frame's update/record/submit sequence
is caught inside the callback (the transition is total), the error state is
set to a message containing the failure, and nothing further is scheduled:
the log gains no entry, the pending animation id is unchanged, and no
`requestAnimationFrame` call is made. -/
theorem c4_render_error_terminal (g : Nat) (e : String) (texAvail : Bool)
    (c : Config) (ha : c.refs.alive = true) (hg : g = c.refs.generation)
    (hr : readyRefs c.refs) :
    (renderStep g (some e) texAvail c).refs.error
        = some ("Render error: " ++ e)
    ∧ (renderStep g (some e) texAvail c).log = c.log
    ∧ (renderStep g (some e) texAvail c).refs.animationId
        = c.refs.animationId
    ∧ (renderStep g (some e) texAvail c).pending = c.pending := by
  rw [renderStep_fault g e texAvail c ha hg hr]
  exact ⟨rfl, rfl, rfl, rfl⟩

/-- C4 witness: a fault in the first frame after a completed initialization
sets the terminal error and schedules nothing. -/
theorem c4_render_error_terminal_witness :
    (renderStep 1 (some "boom") true (run initTrace)).refs.error
        = some ("Render error: " ++ "boom")
    ∧ (renderStep 1 (some "boom") true (run initTrace)).log
        = (run initTrace).log
    ∧ (renderStep 1 (some "boom") true (run initTrace)).refs.animationId
        = (run initTrace).refs.animationId
    ∧ (renderStep 1 (some "boom") true (run initTrace)).pending
        = (run initTrace).pending :=
  c4_render_error_terminal 1 "boom" true (run initTrace)
    (by decide) (by decide) (by decide)

end GltfViewer
